import Mathlib

/-!
Verification of the DerkJS-Redux command-line drivers.

The repository provides two entry points:
  - src/src/main.cpp      : the loop-switch driver
  - src/src/main_tco.cpp  : the tail-dispatch driver

Both import the interpreter implementation (lexer, parser, semantic
analyzer, bytecode generator, heap, VM, Core::Driver) from a module that
is not part of the provided sources, so those components appear here as
abstract oracles or, where a claim needs their behaviour, as definitions
modelled from the specification and marked as such.

Conventions for the shallow embedding:
  - A process invocation is a list of the command-line arguments after
    the program name, so argc = args.length + 1 and argv.at (i+1) is
    modelled by args.get? i.  The C argv array is NULL-terminated, so
    argv.at argc is the null terminator: reading it is modelled by
    args.get? returning none, and constructing a std::string from that
    null pointer (undefined behaviour in the C++ source) is made explicit
    as the outcome nullArgvRead.
  - Fallible external stages (file open, parse, compile) return Option.
-/

namespace DerkJS

/-- Token tags registered by main_tco.cpp (lines 57-97).  The full
enumeration in the implementation module also has literal classes, eof
and an unknown sentinel; only the constructors that the drivers mention
are needed here. -/
inductive TokenTag
  | keyword_var
  | keyword_if
  | keyword_else
  | keyword_return
  | keyword_while
  | keyword_break
  | keyword_continue
  | keyword_function
  | keyword_prototype
  | keyword_this
  | keyword_new
  | keyword_void
  | keyword_typeof
  | keyword_undefined
  | keyword_null
  | keyword_true
  | keyword_false
  | symbol_two_pluses
  | symbol_two_minuses
  | symbol_percent
  | symbol_times
  | symbol_slash
  | symbol_plus
  | symbol_minus
  | symbol_bang
  | symbol_equal
  | symbol_bang_equal
  | symbol_strict_equal
  | symbol_strict_bang_equal
  | symbol_less
  | symbol_less_equal
  | symbol_greater
  | symbol_greater_equal
  | symbol_amps
  | symbol_pipes
  | symbol_assign
  | symbol_percent_assign
  | symbol_times_assign
  | symbol_slash_assign
  | symbol_plus_assign
  | symbol_minus_assign
deriving DecidableEq

/-- Expression AST tags for which main_tco.cpp installs emitters
(lines 100-108). -/
inductive ExprNodeTag
  | primitive
  | object_literal
  | array_literal
  | lambda_literal
  | member_access
  | unary
  | binary
  | assign
  | call
deriving DecidableEq

/-- Statement AST tags for which main_tco.cpp installs emitters
(lines 110-117). -/
inductive StmtNodeTag
  | stmt_expr_stmt
  | stmt_variables
  | stmt_if
  | stmt_return
  | stmt_while
  | stmt_break
  | stmt_continue
  | stmt_block
deriving DecidableEq

/-- Modelled from the spec: the VM exit status compared against ok in
main.cpp line 101.  The VM implementation is not under src/; the error
taxonomy gives runtime, resource and host errors besides ok. -/
inductive ExitStatus
  | ok
  | runtime_error
  | resource_error
  | host_error
deriving DecidableEq

/-- Abstract compiled program artifact.  Its internals are irrelevant to
the drivers, which only pass it from the codegen stage to the VM. -/
structure Program where
  uid : Nat
deriving DecidableEq

/-- Abstract parse result.  The payload stands for the parsed content;
semaApplied records whether the semantic pass has annotated the unit
(the parser produces it unannotated). -/
structure ASTUnit where
  payload : Nat
  semaApplied : Bool
deriving DecidableEq

/-- Modelled from the spec: the semantic pass (SemanticAnalyzer, whose
implementation is not under src/) resolves names and annotates the AST;
modelled as switching the annotation flag on. -/
def SemanticAnalyzer.apply (a : ASTUnit) : ASTUnit :=
  ⟨a.payload, true⟩

/-- Oracles for the external collaborators of main.cpp: the file system
(path to the lines of the file, none when the file cannot be opened),
the parser (source path and source text to optional AST), the bytecode
generator (AST and source text to optional Program, mirroring the
source_map argument whose slot 0 holds the source), and the constructed
VM executed on (program, stack_limit, recursion_limit). -/
structure PipelineEnv where
  fileLines : String → Option (List String)
  parse : String → String → Option ASTUnit
  compile : ASTUnit → String → Option Program
  vmExec : Program → Nat → Nat → ExitStatus

/-- main.cpp line 12. -/
def default_stack_size : Nat := 2048

/-- main.cpp line 13. -/
def default_call_depth_limit : Nat := 208

/-- main.cpp lines 15-30: read_file returns the empty string when the
file cannot be opened, otherwise the concatenation of its lines, each
followed by a newline (the getline loop). -/
def read_file (contents : Option (List String)) : String :=
  match contents with
  | none => ""
  | some lines => lines.foldl (fun acc l => acc ++ l ++ "\n") ""

/-- main.cpp lines 32-36: construct the loop-switch VM with the given
stack and recursion limits and run it. -/
def run_script_bytecode (env : PipelineEnv) (prgm : Program)
    (stack_limit recursion_limit : Nat) : ExitStatus :=
  env.vmExec prgm stack_limit recursion_limit

/-- The constructor arguments of the VM built in run_script_bytecode,
recorded so theorems can speak about the configured limits. -/
structure VMInvocation where
  prgm : Program
  stack_limit : Nat
  recursion_limit : Nat
deriving DecidableEq

/-- Outcome of the compile-and-run part of main.cpp (lines 65-101).
The ran constructor records the AST handed to the bytecode generator,
the VM construction parameters and the VM status. -/
inductive PipelineOutcome
  | parseFailed
  | compileFailed
  | ran (codegenInput : ASTUnit) (vmCall : VMInvocation) (status : ExitStatus)
deriving DecidableEq

/-- main.cpp lines 69-101 given the already-loaded source text: parse;
on success construct a SemanticAnalyzer (line 80: declared and never
invoked, so the parse result flows to codegen unchanged); compile; on
success run the bytecode with the default limits. -/
def runPipelineOnSource (env : PipelineEnv) (source_path source : String)
    (_enable_bytecode_dump : Bool) : PipelineOutcome :=
  match env.parse source_path source with
  | none => .parseFailed
  | some full_ast =>
    match env.compile full_ast source with
    | none => .compileFailed
    | some prgm =>
      .ran full_ast ⟨prgm, default_stack_size, default_call_depth_limit⟩
        (run_script_bytecode env prgm default_stack_size default_call_depth_limit)

/-- main.cpp lines 65-101: load the file at source_path with read_file,
then run the pipeline on the resulting text. -/
def runPipeline (env : PipelineEnv) (source_path : String)
    (enable_bytecode_dump : Bool) : PipelineOutcome :=
  runPipelineOnSource env source_path (read_file (env.fileLines source_path))
    enable_bytecode_dump

/-- Exit code of the pipeline part of main.cpp: 1 on parse failure
(line 75), 1 on compile failure (line 88), and on a completed run 0
exactly when the VM status is ok (line 101). -/
def pipelineExitCode : PipelineOutcome → Nat
  | .parseFailed => 1
  | .compileFailed => 1
  | .ran _ _ st => if st = ExitStatus.ok then 0 else 1

/-- The shared argument-count guard of both drivers
(main.cpp line 41, main_tco.cpp line 19): reject unless 2 <= argc <= 3. -/
def argcGuardRejects (argc : Nat) : Bool :=
  decide (argc < 2) || decide (argc > 3)

namespace LoopSwitch

/-- Observable outcome of main.cpp's main.  nullArgvRead marks the paths
that assign source_path from argv.at 2 when argc = 2, i.e. from the argv
null terminator (undefined behaviour in the C++). -/
inductive MainOutcome
  | usageError
  | versionShown
  | nullArgvRead
  | pipeline (result : PipelineOutcome)
deriving DecidableEq

/-- main.cpp lines 38-101: guard argc; then dispatch on argv.at 1 among
-v, -d, -r (no -h case); -d and -r take the script path from argv.at 2
and run the pipeline, -d with the bytecode dump enabled. -/
def main (env : PipelineEnv) (args : List String) : MainOutcome :=
  if argcGuardRejects (args.length + 1) then .usageError
  else if args.headD "" = "-v" then .versionShown
  else if args.headD "" = "-d" then
    match args.get? 1 with
    | none => .nullArgvRead
    | some source_path => .pipeline (runPipeline env source_path true)
  else if args.headD "" = "-r" then
    match args.get? 1 with
    | none => .nullArgvRead
    | some source_path => .pipeline (runPipeline env source_path false)
  else .usageError

/-- Process exit status of main.cpp per outcome; none for the
undefined-behaviour path. -/
def exitCode : MainOutcome → Option Nat
  | .usageError => some 1
  | .versionShown => some 0
  | .nullArgvRead => none
  | .pipeline r => some (pipelineExitCode r)

end LoopSwitch

namespace TailDispatch

/-- main_tco.cpp line 13. -/
def derkjs_gc_threshold : Nat := 144000

/-- main_tco.cpp line 14. -/
def derkjs_heap_count : Nat := 4096

/-- main_tco.cpp line 36: the polyfill path local, initialized once and
never reassigned. -/
def polyfill_path : String := "./test_suite/stdlib/polyfill.js"

/-- The Driver construction of main_tco.cpp lines 24-33: the second
constructor argument is the heap object-count cap. -/
structure DriverConfig where
  heap_count : Nat
deriving DecidableEq

/-- main_tco.cpp line 32: the driver is constructed with
derkjs_heap_count slots. -/
def driverConfig : DriverConfig := ⟨derkjs_heap_count⟩

/-- Observable outcome of main_tco.cpp's main.  The run constructor
records the arguments of the final driver.run call (line 379) and the
bytecode-dump flag; nullArgvRead is as in the loop-switch driver. -/
inductive MainOutcome
  | usageError
  | helpShown
  | versionShown
  | nullArgvRead
  | run (source_path polyfill : String) (gc_threshold : Nat) (dump : Bool)
deriving DecidableEq

/-- main_tco.cpp lines 16-54 and 379: guard argc; dispatch on argv.at 1
among -h (help, exit 0), -v (version, exit 0), -d, -r; -d and -r take
the script path from argv.at 2 and end in
driver.run (source_path, polyfill_path, derkjs_gc_threshold). -/
def main (args : List String) : MainOutcome :=
  if argcGuardRejects (args.length + 1) then .usageError
  else if args.headD "" = "-h" then .helpShown
  else if args.headD "" = "-v" then .versionShown
  else if args.headD "" = "-d" then
    match args.get? 1 with
    | none => .nullArgvRead
    | some source_path => .run source_path polyfill_path derkjs_gc_threshold true
  else if args.headD "" = "-r" then
    match args.get? 1 with
    | none => .nullArgvRead
    | some source_path => .run source_path polyfill_path derkjs_gc_threshold false
  else .usageError

/-- Process exit status of main_tco.cpp per outcome: none for the
undefined-behaviour path and for completed runs, whose status comes from
the external driver.run. -/
def exitCode : MainOutcome → Option Nat
  | .usageError => some 1
  | .helpShown => some 0
  | .versionShown => some 0
  | .nullArgvRead => none
  | .run _ _ _ _ => none

end TailDispatch

/-- The lexeme-to-tag registrations of main_tco.cpp lines 57-97, in
program order. -/
def jsLexicals : List (String × TokenTag) :=
  [("var", .keyword_var),
   ("if", .keyword_if),
   ("else", .keyword_else),
   ("return", .keyword_return),
   ("while", .keyword_while),
   ("break", .keyword_break),
   ("continue", .keyword_continue),
   ("function", .keyword_function),
   ("prototype", .keyword_prototype),
   ("this", .keyword_this),
   ("new", .keyword_new),
   ("void", .keyword_void),
   ("typeof", .keyword_typeof),
   ("undefined", .keyword_undefined),
   ("null", .keyword_null),
   ("true", .keyword_true),
   ("false", .keyword_false),
   ("++", .symbol_two_pluses),
   ("--", .symbol_two_minuses),
   ("%", .symbol_percent),
   ("*", .symbol_times),
   ("/", .symbol_slash),
   ("+", .symbol_plus),
   ("-", .symbol_minus),
   ("!", .symbol_bang),
   ("==", .symbol_equal),
   ("!=", .symbol_bang_equal),
   ("===", .symbol_strict_equal),
   ("!==", .symbol_strict_bang_equal),
   ("<", .symbol_less),
   ("<=", .symbol_less_equal),
   (">", .symbol_greater),
   (">=", .symbol_greater_equal),
   ("&&", .symbol_amps),
   ("||", .symbol_pipes),
   ("=", .symbol_assign),
   ("%=", .symbol_percent_assign),
   ("*=", .symbol_times_assign),
   ("/=", .symbol_slash_assign),
   ("+=", .symbol_plus_assign),
   ("-=", .symbol_minus_assign)]

/-- The expression emitters installed by main_tco.cpp lines 100-108, in
program order. -/
def exprEmitterTags : List ExprNodeTag :=
  [.primitive, .object_literal, .array_literal, .lambda_literal,
   .member_access, .unary, .binary, .assign, .call]

/-- The statement emitters installed by main_tco.cpp lines 110-117, in
program order. -/
def stmtEmitterTags : List StmtNodeTag :=
  [.stmt_expr_stmt, .stmt_variables, .stmt_if, .stmt_return,
   .stmt_while, .stmt_break, .stmt_continue, .stmt_block]

/-- The debug names of the add_native_object allocations of
main_tco.cpp, in program order: the five prototypes of lines 121-126,
then the console, Date and parseInt objects of lines 342-351 (allocated
with empty debug names). -/
def nativeObjectAllocs : List String :=
  ["Object::prototype", "Boolean::prototype", "String::prototype",
   "Array::prototype", "Function::prototype", "", "", ""]

/-- One driver-API call of the startup sequence in main_tco.cpp.
Patch targets are named by the C++ pointer variable they patch; alias
events carry the registered global name. -/
inductive StartupEvent
  | lexical (lexeme : String) (tag : TokenTag)
  | exprEmitter (tag : ExprNodeTag)
  | stmtEmitter (tag : StmtNodeTag)
  | nativeObject (debug_name : String)
  | patchNativeObject (target : String)
  | objectAlias (global_name : String)
  | runDriver (source_path polyfill : String) (gc_threshold : Nat)
deriving DecidableEq

/-- The patch_native_object and add_native_object_alias calls of
main_tco.cpp lines 355-375, in program order. -/
def patchAndAliasEvents : List StartupEvent :=
  [.patchNativeObject "object_prototype_p", .objectAlias "Object",
   .patchNativeObject "boolean_prototype_p", .objectAlias "Boolean",
   .patchNativeObject "string_prototype_p", .objectAlias "String",
   .patchNativeObject "array_prototype_p", .objectAlias "Array",
   .patchNativeObject "function_prototype_p",
   .patchNativeObject "console_p", .objectAlias "console",
   .patchNativeObject "date_p", .objectAlias "Date",
   .objectAlias "parseInt"]

/-- All driver-API calls of main_tco.cpp before driver.run, in program
order (lines 57-375). -/
def tcoConfigEvents : List StartupEvent :=
  jsLexicals.map (fun p => StartupEvent.lexical p.1 p.2)
    ++ exprEmitterTags.map StartupEvent.exprEmitter
    ++ stmtEmitterTags.map StartupEvent.stmtEmitter
    ++ nativeObjectAllocs.map StartupEvent.nativeObject
    ++ patchAndAliasEvents

/-- The full driver-API call sequence of a main_tco.cpp run invocation:
the configuration calls followed by driver.run (line 379). -/
def tcoStartupTrace (source_path : String) : List StartupEvent :=
  tcoConfigEvents
    ++ [StartupEvent.runDriver source_path TailDispatch.polyfill_path
          TailDispatch.derkjs_gc_threshold]

/-- Phase number of a startup event: lexical registrations, then
emitters, then native object allocations, then patches and aliases,
then the run call. -/
def eventPhase : StartupEvent → Nat
  | .lexical _ _ => 0
  | .exprEmitter _ => 1
  | .stmtEmitter _ => 1
  | .nativeObject _ => 2
  | .patchNativeObject _ => 3
  | .objectAlias _ => 3
  | .runDriver _ _ _ => 4

/-- One stage of a driver.run execution. -/
inductive RunPhase
  | polyfillScript (path : String)
  | userScript (path : String)
deriving DecidableEq

/-- Modelled from the spec: Driver.run (implementation not under src/)
executes the polyfill script first and the user script after it. -/
def driverRunPhases (source_path poly : String) : List RunPhase :=
  [.polyfillScript poly, .userScript source_path]

/-- Whether a token tag is one of the keyword tags. -/
def TokenTag.isKeyword : TokenTag → Bool
  | .keyword_var | .keyword_if | .keyword_else | .keyword_return
  | .keyword_while | .keyword_break | .keyword_continue
  | .keyword_function | .keyword_prototype | .keyword_this
  | .keyword_new | .keyword_void | .keyword_typeof
  | .keyword_undefined | .keyword_null | .keyword_true
  | .keyword_false => true
  | _ => false

/-- The lexemes registered with a keyword tag by main_tco.cpp. -/
def registeredKeywordLexemes : List String :=
  (jsLexicals.filter (fun p => p.2.isKeyword)).map Prod.fst

/-- The keyword enumeration of the specification, in its order. -/
def specKeywordLexemes : List String :=
  ["var", "if", "else", "while", "break", "continue", "return",
   "function", "prototype", "this", "new", "void", "typeof",
   "undefined", "null", "true", "false"]

/-! ## Concrete oracle environments used by closed theorems -/

/-- An environment in which every external stage fails or is trivial. -/
def trivialEnv : PipelineEnv :=
  ⟨fun _ => none, fun _ _ => none, fun _ _ => none, fun _ _ _ => ExitStatus.ok⟩

/-! ## Claims -/

/-- C2, counterexample: invoked with the single argument -h, the
loop-switch driver (main.cpp) does not print help and exit 0; it has no
-h case, falls through to the usage branch and exits with status 1, so
the claim fails for that entry point. -/
theorem help_flag_loop_switch_exits_one :
    LoopSwitch.main trivialEnv ["-h"] = LoopSwitch.MainOutcome.usageError ∧
    LoopSwitch.exitCode (LoopSwitch.main trivialEnv ["-h"]) = some 1 :=
  ⟨rfl, rfl⟩

/-- C2, amended: when invoked with the single argument -h, the
tail-dispatch driver (main_tco.cpp) prints the help text and exits with
status 0, while the loop-switch driver (main.cpp) has no -h case and
prints the usage text to stderr, exiting with status 1. -/
theorem help_flag_tco_only (env : PipelineEnv) :
    TailDispatch.main ["-h"] = TailDispatch.MainOutcome.helpShown ∧
    TailDispatch.exitCode (TailDispatch.main ["-h"]) = some 0 ∧
    LoopSwitch.main env ["-h"] = LoopSwitch.MainOutcome.usageError ∧
    LoopSwitch.exitCode (LoopSwitch.main env ["-h"]) = some 1 :=
  ⟨rfl, rfl, rfl, rfl⟩

/-- C7: the lexemes registered with keyword tags in main_tco.cpp are
exactly the closed keyword enumeration of the specification (var if
else while break continue return function prototype this new void
typeof undefined null true false): none is missing, none is extra, and
none is registered twice. -/
theorem registered_keywords_exact :
    (∀ s ∈ registeredKeywordLexemes, s ∈ specKeywordLexemes) ∧
    (∀ s ∈ specKeywordLexemes, s ∈ registeredKeywordLexemes) ∧
    registeredKeywordLexemes.Nodup := by
  decide

/-- C8: a two-argument invocation with -r or -d but no script path
(argc = 2) is admitted by the argument-count guard of both drivers, and
both then assign source_path from argv.at 2, which is the argv null
terminator: the embedding reports the explicit nullArgvRead outcome
(std::string construction from a null pointer) instead of a usage
rejection. -/
theorem flag_without_script_reads_null_argv (env : PipelineEnv) :
    argcGuardRejects 2 = false ∧
    LoopSwitch.main env ["-r"] = LoopSwitch.MainOutcome.nullArgvRead ∧
    LoopSwitch.main env ["-d"] = LoopSwitch.MainOutcome.nullArgvRead ∧
    TailDispatch.main ["-r"] = TailDispatch.MainOutcome.nullArgvRead ∧
    TailDispatch.main ["-d"] = TailDispatch.MainOutcome.nullArgvRead :=
  ⟨rfl, rfl, rfl, rfl, rfl⟩

/-- A parser output used to exhibit the unused semantic pass: a raw,
unannotated AST. -/
def rawAstC1 : ASTUnit := ⟨7, false⟩

/-- An environment whose parser accepts (returning the raw AST), whose
codegen succeeds and whose VM reports ok. -/
def envAccepting : PipelineEnv :=
  ⟨fun _ => none, fun _ _ => some rawAstC1,
   fun a _ => some ⟨a.payload⟩, fun _ _ _ => ExitStatus.ok⟩

/-- C1: at a concrete accepted source, main.cpp hands the bytecode
generator the raw parse result itself: the outcome records the
unannotated AST as the codegen input, even though applying the semantic
pass would have changed it.  The SemanticAnalyzer of main.cpp line 80 is
constructed and never invoked, so no semantically annotated AST ever
reaches codegen. -/
theorem codegen_receives_raw_ast :
    envAccepting.parse "script.js" (read_file (envAccepting.fileLines "script.js"))
      = some rawAstC1 ∧
    runPipeline envAccepting "script.js" false =
      PipelineOutcome.ran rawAstC1
        ⟨⟨7⟩, default_stack_size, default_call_depth_limit⟩ ExitStatus.ok ∧
    rawAstC1.semaApplied = false ∧
    SemanticAnalyzer.apply rawAstC1 ≠ rawAstC1 :=
  ⟨rfl, rfl, rfl, by decide⟩

/-- C3: on the script-run path of main.cpp, the process exit status is
0 exactly when the run completes successfully, i.e. the parse yields an
AST, the compile yields a Program and the VM reports ok; a parse
failure, a compile failure and a VM status other than ok each yield
exit status 1. -/
theorem loop_driver_exit_zero_iff_success (env : PipelineEnv) (path : String)
    (dump : Bool) :
    pipelineExitCode (runPipeline env path dump) = 0 ↔
      ∃ a prgm,
        env.parse path (read_file (env.fileLines path)) = some a ∧
        env.compile a (read_file (env.fileLines path)) = some prgm ∧
        env.vmExec prgm default_stack_size default_call_depth_limit
          = ExitStatus.ok := by
  unfold runPipeline runPipelineOnSource
  cases hp : env.parse path (read_file (env.fileLines path)) with
  | none => simp [pipelineExitCode]
  | some a =>
    cases hc : env.compile a (read_file (env.fileLines path)) with
    | none => simp [pipelineExitCode, hc]
    | some prgm =>
      simp only [pipelineExitCode, run_script_bytecode, hc, Option.some.injEq]
      constructor
      · intro h
        refine ⟨a, prgm, rfl, hc, ?_⟩
        by_contra hne
        simp [if_neg hne] at h
      · rintro ⟨a2, p2, ha2, hc2, hok⟩
        subst ha2
        rw [hc] at hc2
        cases hc2
        simp [hok]

/-- C4: in the tail-dispatch driver the startup call sequence is
phase-ordered: every lexical registration precedes every emitter
installation, every emitter precedes every native object allocation,
every allocation (the five prototypes, then console, Date, parseInt)
precedes every patch and global alias, and driver.run is the single
final call, which (modelled from the spec) executes the polyfill script
and then the user script. -/
theorem tco_startup_order (path : String) :
    List.Pairwise (fun a b => eventPhase a ≤ eventPhase b)
      (tcoStartupTrace path) ∧
    tcoStartupTrace path =
      tcoConfigEvents
        ++ [StartupEvent.runDriver path TailDispatch.polyfill_path
              TailDispatch.derkjs_gc_threshold] ∧
    (∀ e ∈ tcoConfigEvents, eventPhase e ≤ 3) ∧
    driverRunPhases path TailDispatch.polyfill_path =
      [RunPhase.polyfillScript TailDispatch.polyfill_path,
       RunPhase.userScript path] := by
  have hconf : ∀ e ∈ tcoConfigEvents, eventPhase e ≤ 3 := by decide
  refine ⟨?_, rfl, hconf, rfl⟩
  unfold tcoStartupTrace
  apply List.pairwise_append.mpr
  refine ⟨by decide, ?_, ?_⟩
  · simp
  · intro a ha b hb
    simp only [List.mem_singleton] at hb
    subst hb
    have h4 : eventPhase
        (StartupEvent.runDriver path TailDispatch.polyfill_path
          TailDispatch.derkjs_gc_threshold) = 4 := rfl
    rw [h4]
    exact le_trans (hconf a ha) (by omega)

/-- C5: whenever main.cpp reaches VM execution, the VM recorded in the
outcome was constructed with a value-stack capacity of 2048 slots and a
call-frame depth cap of 208, the defaults of main.cpp lines 12-13. -/
theorem vm_limits_default (env : PipelineEnv) (path : String) (dump : Bool)
    (a : ASTUnit) (inv : VMInvocation) (st : ExitStatus)
    (h : runPipeline env path dump = PipelineOutcome.ran a inv st) :
    inv.stack_limit = 2048 ∧ inv.recursion_limit = 208 := by
  unfold runPipeline runPipelineOnSource at h
  split at h
  · cases h
  · split at h
    · cases h
    · injection h with h1 h2 h3
      subst h2
      exact ⟨rfl, rfl⟩

/-- C5 witness: a run through envAccepting reaches the VM, and the
recorded construction parameters are 2048 and 208. -/
theorem vm_limits_default_witness :
    (VMInvocation.mk ⟨7⟩ default_stack_size default_call_depth_limit).stack_limit
      = 2048 ∧
    (VMInvocation.mk ⟨7⟩ default_stack_size default_call_depth_limit).recursion_limit
      = 208 :=
  vm_limits_default envAccepting "script.js" false rawAstC1
    (VMInvocation.mk ⟨7⟩ default_stack_size default_call_depth_limit)
    ExitStatus.ok rfl

/-- C6: the tail-dispatch driver constructs its Driver with a heap hard
cap of 4096 object slots, and every run it starts passes the default
garbage-collection threshold of 144000 bytes to driver.run. -/
theorem tco_heap_and_gc_defaults (args : List String) (s poly : String)
    (gc : Nat) (d : Bool)
    (h : TailDispatch.main args = TailDispatch.MainOutcome.run s poly gc d) :
    gc = 144000 ∧ TailDispatch.driverConfig.heap_count = 4096 := by
  refine ⟨?_, rfl⟩
  unfold TailDispatch.main at h
  repeat' split at h
  all_goals cases h
  all_goals rfl

/-- C6 witness: the invocation -r a.js reaches driver.run with the
144000-byte threshold, and the driver heap cap is 4096. -/
theorem tco_heap_and_gc_defaults_witness :
    (144000 : Nat) = 144000 ∧ TailDispatch.driverConfig.heap_count = 4096 :=
  tco_heap_and_gc_defaults ["-r", "a.js"] "a.js" TailDispatch.polyfill_path
    144000 false rfl

/-- An environment in which no file can be opened. -/
def envNoFile : PipelineEnv :=
  ⟨fun _ => none, fun _ _ => some rawAstC1,
   fun a _ => some ⟨a.payload⟩, fun _ _ _ => ExitStatus.ok⟩

/-- C9: when the script file cannot be opened, read_file of main.cpp
returns the empty string and the pipeline simply proceeds on that empty
source; the run is identical to a run on the empty source text, and no
I/O-error outcome exists on this path. -/
theorem missing_file_runs_empty_source (env : PipelineEnv) (path : String)
    (dump : Bool) (h : env.fileLines path = none) :
    read_file (env.fileLines path) = "" ∧
    runPipeline env path dump = runPipelineOnSource env path "" dump := by
  constructor
  · rw [h]
    rfl
  · unfold runPipeline
    rw [h]
    rfl

/-- C9 witness: with every file unopenable, the run on ghost.js equals
the run on the empty source. -/
theorem missing_file_runs_empty_source_witness :
    read_file (envNoFile.fileLines "ghost.js") = "" ∧
    runPipeline envNoFile "ghost.js" false =
      runPipelineOnSource envNoFile "ghost.js" "" false :=
  missing_file_runs_empty_source envNoFile "ghost.js" false rfl

/-- C10: every run the tail-dispatch driver starts passes the fixed
polyfill path ./test_suite/stdlib/polyfill.js to driver.run; no
command-line argument reaching the run outcome can change it. -/
theorem tco_polyfill_path_fixed (args : List String) (s poly : String)
    (gc : Nat) (d : Bool)
    (h : TailDispatch.main args = TailDispatch.MainOutcome.run s poly gc d) :
    poly = "./test_suite/stdlib/polyfill.js" := by
  unfold TailDispatch.main at h
  repeat' split at h
  all_goals cases h
  all_goals rfl

/-- C10 witness: the invocation -d b.js reaches driver.run with the
fixed polyfill path. -/
theorem tco_polyfill_path_fixed_witness :
    TailDispatch.polyfill_path = "./test_suite/stdlib/polyfill.js" :=
  tco_polyfill_path_fixed ["-d", "b.js"] "b.js" TailDispatch.polyfill_path
    TailDispatch.derkjs_gc_threshold true rfl

end DerkJS
